import Mathlib

/-!
Verification of the tool-calling agent service (`src/api`): the LangGraph
orchestration loop built in `agent.py` / `main.py`, the `run_agent` stream
fold, the registered `POST /chat` handler of `main.py`, the alternative
handler of `chat.py`, and the tools of `tools.py`.

The graph compiled in `create_agent` (and, identically, in
`initialize_agent_if_needed`) alternates an `agent` node (one model call,
appending one assistant message) with an `action`/`tools` node (a `ToolNode`
executing the assistant message's tool calls), and ends exactly when the
last assistant message carries no tool calls (`decide_next` /
`should_continue`).  The model call is, from the loop's perspective, a pure
function of the history, so both `agent.astream` and `agent.invoke` replay
the same deterministic computation; we embed that computation once
(`runLoop`) and read the stream of node updates and the final transcript
off it.  `runLoop` is fuel-indexed: `none` means the graph has not reached
its end state within the given number of agent turns — the repository's own
code contains no iteration cap, so no fuel value is distinguished.
-/

/-- A tool call as emitted by the model: identifier, tool name and a
key/value argument payload (`ToolCall` of the data model). -/
structure ToolCall where
  id : String
  name : String
  args : List (String × String)
deriving DecidableEq

/-- One message of the conversation history: `user`, `assistant` (content
plus the ordered tool calls it carries) or `tool` (result of one call,
linked back by `tool_call_id` and carrying the tool's `name`). -/
inductive Message where
  | user (content : String)
  | assistant (content : String) (tool_calls : List ToolCall)
  | tool (tool_call_id : String) (name : String) (content : String)
deriving DecidableEq

/-- The `content` attribute every langchain message has. -/
def Message.content : Message → String
  | Message.user c => c
  | Message.assistant c _ => c
  | Message.tool _ _ c => c

/-- The `name` attribute read off a streamed message in `run_agent`
(`agent.py` line 99): the tool name on a `tool` message, empty elsewhere. -/
def Message.msgName : Message → String
  | Message.tool _ n _ => n
  | _ => ""

/-- The model gateway as the loop sees it (`call_model` composed with the
bound model): a pure function of the history returning the next assistant
message's content and tool calls. -/
def Gateway : Type := List Message → String × List ToolCall

/-- Modelled from the spec: langgraph's `ToolNode` — the executor of the
`action` / `tools` node wired in `create_agent` (agent.py line 53) and
`initialize_agent_if_needed` (main.py line 114) — is library code absent
from `src/`.  Per §4.3 step 4 of the spec it executes every pending
`ToolCall` of the preceding assistant message and appends one `tool`-role
message per call, results ordered as the calls were issued. -/
def toolMessages (exec : ToolCall → String) (calls : List ToolCall) : List Message :=
  calls.map (fun c => Message.tool c.id c.name (exec c))

/-- One node update of the graph stream (`stream_mode="updates"` in
`run_agent`): what the `agent` node or the `action` node appended. -/
inductive NodeEvent where
  | agentStep (content : String) (calls : List ToolCall)
  | actionStep (msgs : List Message)
deriving DecidableEq

/-- The compiled graph of `create_agent`: from the current history, the
`agent` node appends one assistant message; `decide_next` routes to the
`action` node (which appends one tool message per call) when that message
carries tool calls, else to `END`.  Returns the ordered node updates and
the final transcript, or `none` when the fuel (number of agent turns
allowed) runs out before `END` — the code itself has no iteration cap. -/
def runLoop (exec : ToolCall → String) (gw : Gateway) :
    Nat → List Message → Option (List NodeEvent × List Message)
  | 0, _ => none
  | fuel + 1, hist =>
    let c := (gw hist).1
    let calls := (gw hist).2
    if calls = [] then
      some ([NodeEvent.agentStep c calls], hist ++ [Message.assistant c calls])
    else
      match runLoop exec gw fuel ((hist ++ [Message.assistant c calls]) ++ toolMessages exec calls) with
      | none => none
      | some (evs, fin) =>
          some (NodeEvent.agentStep c calls :: NodeEvent.actionStep (toolMessages exec calls) :: evs, fin)

/-- The fold `run_agent` (agent.py lines 94-105) performs over the streamed
node updates: the `action` node's messages push their `name`s onto
`tool_calls_made`; an `agent` node message with non-empty content replaces
`final_response`. -/
def streamFold : List NodeEvent → List String × String → List String × String
  | [], acc => acc
  | NodeEvent.agentStep c _ :: evs, acc =>
      streamFold evs (acc.1, if c = "" then acc.2 else c)
  | NodeEvent.actionStep ms :: evs, acc =>
      streamFold evs (acc.1 ++ ms.map Message.msgName, acc.2)

/-- The fixed fallback of `run_agent` (agent.py line 114). -/
def apologyMsg : String := "I apologize, but I couldn't generate a response."

/-- What `run_agent` returns: `response` text and the invoked tool names. -/
structure AgentResult where
  response : String
  tool_calls : List String
deriving DecidableEq

/-- `run_agent` (agent.py lines 76-116): stream the graph from the single
user message, fold the updates; if no non-empty response was captured,
invoke the agent a second time (deterministic, hence the same transcript)
and take the last message's content; return that or the apology. -/
def runAgent (exec : ToolCall → String) (gw : Gateway) (fuel : Nat)
    (message : String) : Option AgentResult :=
  match runLoop exec gw fuel [Message.user message] with
  | none => none
  | some (evs, finalMsgs) =>
    let acc := streamFold evs ([], "")
    let fin :=
      if acc.2 = "" then
        match finalMsgs.getLast? with
        | some m => m.content
        | none => ""
      else acc.2
    some ⟨if fin = "" then apologyMsg else fin, acc.1⟩

/-! ## Tools (`src/api/tools.py`) -/

/-- `get_weather` (tools.py lines 13-16): the dummy weather report. -/
def get_weather (city : String) : String :=
  "The weather in " ++ city ++ " is sunny with a temperature of 22°C (72°F). Perfect day to go outside!"

/-- `fun_fact` (tools.py lines 36-46): fixed facts for four topics, a
default built from the topic otherwise (lookup is on the lowercased topic,
the default embeds the topic as given). -/
def fun_fact (topic : String) : String :=
  let t := topic.toLower
  if t = "pizza" then
    "Did you know that pizza was invented in Naples, Italy, and the first pizzeria opened in 1830?"
  else if t = "ocean" then
    "Did you know that we have explored less than 5% of our oceans?"
  else if t = "space" then
    "Did you know that a day on Venus is longer than its year?"
  else if t = "cats" then
    "Did you know that cats have 32 muscles in each ear?"
  else
    "Did you know that " ++ topic ++ " has a fascinating history filled with interesting discoveries?"

/-- Python's `repr` of a list of strings, as `random_color` interpolates it. -/
def pyStrListRepr (xs : List String) : String :=
  "[" ++ String.intercalate ", " (xs.map (fun s => "'" ++ s ++ "'")) ++ "]"

/-- `random_color` (tools.py lines 49-56).  `random.choice(colors)` draws a
uniform index into the list; the draw is modelled by the extra argument
`pick`, reduced modulo the length as any index-based draw is. -/
def random_color (colors : List String) (pick : Nat) : String :=
  if h : colors = [] then
    "No colors provided to choose from."
  else
    let i : Fin colors.length := ⟨pick % colors.length, Nat.mod_lt _ (List.length_pos.mpr h)⟩
    "I randomly selected: " ++ colors.get i ++ " from the list " ++ pyStrListRepr colors

/-- Argument lookup in a call's payload (a missing key yields the empty
string; no claim exercises that path). -/
def argValue (args : List (String × String)) (key : String) : String :=
  match args.lookup key with
  | some v => v
  | none => ""

/-- The dispatch `ToolNode(AVAILABLE_TOOLS)` performs, for the pure tools a
claim exercises: `get_weather` and `fun_fact` by name; other names yield
the tool node's error text (`wiki_search` does network I/O and
`random_color` draws randomness, neither is reached by a claim, so the
dispatcher routes them to the error arm like an unknown name). -/
def execTool (c : ToolCall) : String :=
  if c.name = "get_weather" then get_weather (argValue c.args "city")
  else if c.name = "fun_fact" then fun_fact (argValue c.args "topic")
  else "Error: " ++ c.name ++ " is not a valid tool."

/-! ## The registered `POST /chat` handler (`src/api/main.py`) -/

/-- Python truthiness of an optional string: `None` and `""` are falsy. -/
def pyTruthy : Option String → Bool
  | none => false
  | some s => s != ""

/-- Python's `a or b` on optional strings. -/
def pyOr (a b : Option String) : Option String :=
  if pyTruthy a then a else b

/-- Credential resolution of main.py line 190:
`request.api_key or request.openai_api_key or os.getenv("OPENAI_API_KEY")`,
then the `if not api_key` guard — `none` exactly when nothing truthy. -/
def resolveKey (apiKey openaiKey env : Option String) : Option String :=
  let k := pyOr (pyOr apiKey openaiKey) env
  if pyTruthy k then k else none

/-- The request body of main.py's `ChatRequest` (lines 49-52): `message`
plus the credential under either field name. -/
structure ChatReq where
  message : String
  api_key : Option String
  openai_api_key : Option String
deriving DecidableEq

/-- What one call of main.py's `chat` produces: HTTP status, response text,
invoked tool names, and the value of `os.environ["OPENAI_API_KEY"]` after
the call (the handler writes that variable at line 199). -/
structure ChatOutcome where
  status : Nat
  response : String
  tool_calls : List String
  envAfter : Option String
deriving DecidableEq

/-- The fixed no-credential reply of main.py lines 192-195. -/
def credRequiredMsg : String :=
  "I need an OpenAI API key to function. Please provide one in your request or set the OPENAI_API_KEY environment variable."

/-- The fixed initialization-trouble reply of main.py lines 205-208. -/
def initTroubleMsg : String :=
  "Sorry, I'm having trouble initializing. Please check the logs."

/-- The tool names main.py lines 222-225 collect from the final transcript:
every tool call carried by an assistant message, in message order. -/
def collectToolNames : List Message → List String
  | [] => []
  | Message.assistant _ calls :: rest => calls.map ToolCall.name ++ collectToolNames rest
  | _ :: rest => collectToolNames rest

/-- The registered `POST /chat` handler, main.py lines 184-238, as a pure
function of the ambient credential `env`, whether agent initialization
succeeds (`agentOk`), the agent's run (`runM`, the final `messages` of
`agent.invoke`) and the request.  Mirrors the handler's order: resolve the
credential (fixed 200 reply when none), overwrite the environment variable
when the resolved key differs, initialize, run, then shape `messages[-1]`
and the deduplicated tool names (`list(set(...))` is unordered; the claim
in play concerns only duplicate-freedom, embedded as `List.dedup`). -/
def chatMain (env : Option String) (agentOk : Bool)
    (runM : String → List Message) (req : ChatReq) : ChatOutcome :=
  match resolveKey req.api_key req.openai_api_key env with
  | none => ⟨200, credRequiredMsg, [], env⟩
  | some k =>
    let env2 := if env = some k then env else some k
    if agentOk then
      let msgs := runM req.message
      match msgs.getLast? with
      | none => ⟨500, "list index out of range", [], env2⟩
      | some m => ⟨200, m.content, (collectToolNames msgs).dedup, env2⟩
    else ⟨200, initTroubleMsg, [], env2⟩

/-! ## The alternative handler (`src/api/chat.py`), exported but mounted on
no route: only main.py's `chat` serves `POST /chat`. -/

/-- chat.py's `ChatRequest` (lines 20-23): only the alternate field name. -/
structure ChatReq2 where
  message : String
  openai_api_key : Option String
deriving DecidableEq

/-- The 400 detail of chat.py lines 54-57. -/
def missingKeyDetail : String :=
  "OpenAI API key is required. Either provide it in the request or set OPENAI_API_KEY environment variable."

/-- `handle_chat` (chat.py lines 32-74) as status, body and tool names: a
truthy request key or an initialized global agent runs `run_agent` (its
result passed in as `result`); otherwise HTTP 400 with a fixed detail. -/
def handleChat (hasGlobalAgent : Bool) (req : ChatReq2)
    (result : AgentResult) : Nat × String × List String :=
  if pyTruthy req.openai_api_key then (200, result.response, result.tool_calls)
  else if hasGlobalAgent then (200, result.response, result.tool_calls)
  else (400, missingKeyDetail, [])

/-! ## Concrete gateways used by the scenarios -/

/-- A gateway that always requests a tool call (the always-`ToolRequest`
model of the liveness claim). -/
def alwaysToolGw : Gateway :=
  fun _ => ("", [⟨"call_loop", "get_weather", [("city", "Paris")]⟩])

/-- The Paris scenario gateway: on the first model call (no assistant
message in the history yet) request `get_weather(city="Paris")`, then
answer. -/
def parisGw : Gateway := fun hist =>
  if hist.countP (fun m => match m with | Message.assistant _ _ => true | _ => false) = 0 then
    ("", [⟨"call_1", "get_weather", [("city", "Paris")]⟩])
  else
    ("It's sunny in Paris.", [])

/-- A gateway that immediately answers with empty content. -/
def emptyAnswerGw : Gateway := fun _ => ("", [])

/-! ## Structure of the loop -/

/-- A terminating run's event list ends with the answering `agent` update,
and the final transcript ends with that answer as an assistant message
carrying no tool calls. -/
theorem runLoop_last (exec : ToolCall → String) (gw : Gateway) (fuel : Nat) :
    ∀ hist evs fin, runLoop exec gw fuel hist = some (evs, fin) →
      ∃ c evs0, evs = evs0 ++ [NodeEvent.agentStep c []] ∧
        fin.getLast? = some (Message.assistant c []) := by
  induction fuel with
  | zero => intro hist evs fin h; simp [runLoop] at h
  | succ n ih =>
    intro hist evs fin h
    simp only [runLoop] at h
    by_cases hc : (gw hist).2 = []
    · rw [if_pos hc] at h
      obtain ⟨hevs, hfin⟩ := Prod.mk.injEq .. ▸ Option.some.injEq .. ▸ h
      exact ⟨(gw hist).1, [], by simp [← hevs, hc], by simp [← hfin, hc]⟩
    · rw [if_neg hc] at h
      cases hr : runLoop exec gw n
          ((hist ++ [Message.assistant (gw hist).1 (gw hist).2]) ++ toolMessages exec (gw hist).2) with
      | none => rw [hr] at h; simp at h
      | some p =>
        rw [hr] at h
        obtain ⟨evs', fin'⟩ := p
        obtain ⟨hevs, hfin⟩ := Prod.mk.injEq .. ▸ Option.some.injEq .. ▸ h
        obtain ⟨c, evs0, he, hl⟩ := ih _ _ _ hr
        exact ⟨c, NodeEvent.agentStep (gw hist).1 (gw hist).2 ::
          NodeEvent.actionStep (toolMessages exec (gw hist).2) :: evs0,
          by simp [← hevs, he], by simp [← hfin, hl]⟩

/-- `streamFold` distributes over list concatenation. -/
theorem streamFold_append (evs evs' : List NodeEvent) (acc : List String × String) :
    streamFold (evs ++ evs') acc = streamFold evs' (streamFold evs acc) := by
  induction evs generalizing acc with
  | nil => rfl
  | cons e evs ih => cases e <;> simp [streamFold, ih]

/-- When every `agent` update of the stream has empty content, the folded
`final_response` stays what it started as. -/
theorem streamFold_empty_agent (evs : List NodeEvent)
    (h : ∀ c cs, NodeEvent.agentStep c cs ∈ evs → c = "") (acc : List String × String) :
    (streamFold evs acc).2 = acc.2 := by
  induction evs generalizing acc with
  | nil => rfl
  | cons e evs ih =>
    cases e with
    | agentStep c cs =>
      have hc : c = "" := h c cs (by simp)
      rw [streamFold, if_pos hc]
      exact ih (fun c' cs' hm => h c' cs' (List.mem_cons_of_mem _ hm)) _
    | actionStep ms =>
      rw [streamFold]
      exact ih (fun c' cs' hm => h c' cs' (List.mem_cons_of_mem _ hm)) _

/-! ## Claim theorems -/

/-- C1: the repository's loop has no iteration cap and no `Failed` state —
against a gateway that always returns a tool request, `decide_next` /
`should_continue` never route to `END`, so the run fails to terminate
within ANY bound: `runLoop` yields `none` for every fuel value and every
starting history.  The spec's required bounded-iteration behavior is absent
from the code (the spec itself flags the missing cap as a latent liveness
bug). -/
theorem no_iteration_cap (fuel : Nat) (hist : List Message) :
    runLoop execTool alwaysToolGw fuel hist = none := by
  induction fuel generalizing hist with
  | zero => rfl
  | succ n ih => simp [runLoop, alwaysToolGw, ih]

/-- C8: the Paris scenario — a gateway that first requests
`get_weather(city="Paris")` and then answers — produces exactly the answer
text and the single invoked tool name `get_weather`. -/
theorem paris_scenario :
    runAgent execTool parisGw 10 "What's the weather in Paris?" =
      some ⟨"It's sunny in Paris.", ["get_weather"]⟩ := by rfl

/-- C2 (amended): when a run terminates and its answering assistant message
(the last message of the final transcript, carrying no tool calls) has
non-empty content, `run_agent` returns exactly that content — it is not
re-derived from another message nor from a second invocation.  (When the
answer's content is empty, `run_agent` re-invokes the agent and synthesizes
a fallback; see the counterexample.) -/
theorem answer_text_exact (exec : ToolCall → String) (gw : Gateway) (fuel : Nat)
    (m c : String) (r : AgentResult) (evs : List NodeEvent) (msgs : List Message)
    (hrun : runLoop exec gw fuel [Message.user m] = some (evs, msgs))
    (hlast : msgs.getLast? = some (Message.assistant c []))
    (hc : c ≠ "")
    (hr : runAgent exec gw fuel m = some r) :
    r.response = c := by
  obtain ⟨c', evs0, hevs, hfin⟩ := runLoop_last exec gw fuel _ _ _ hrun
  have hcc : c' = c := by
    rw [hlast] at hfin
    injection hfin with h1
    injection h1 with h2 h3
    exact h2.symm
  subst hcc
  subst hevs
  simp only [runAgent, hrun, streamFold_append, streamFold, if_neg hc] at hr
  injection hr with h
  rw [← h]

theorem answer_text_exact_witness :
    (⟨"It's sunny in Paris.", ["get_weather"]⟩ : AgentResult).response = "It's sunny in Paris." :=
  answer_text_exact execTool parisGw 10 "What's the weather in Paris?" "It's sunny in Paris."
    ⟨"It's sunny in Paris.", ["get_weather"]⟩
    [NodeEvent.agentStep "" [⟨"call_1", "get_weather", [("city", "Paris")]⟩],
     NodeEvent.actionStep [Message.tool "call_1" "get_weather" (get_weather "Paris")],
     NodeEvent.agentStep "It's sunny in Paris." []]
    [Message.user "What's the weather in Paris?",
     Message.assistant "" [⟨"call_1", "get_weather", [("city", "Paris")]⟩],
     Message.tool "call_1" "get_weather" (get_weather "Paris"),
     Message.assistant "It's sunny in Paris." []]
    (by rfl) (by rfl) (by decide) (by rfl)

/-- C2 counterexample to the claim as stated: against a gateway whose
answer has empty content, the run's answering assistant message carries
`""`, yet `run_agent` re-invokes the agent (its fallback path) and returns
the apology — the final text is not the content of the answer message. -/
theorem answer_text_counterexample :
    runLoop execTool emptyAnswerGw 5 [Message.user "hi"] =
      some ([NodeEvent.agentStep "" []], [Message.user "hi", Message.assistant "" []]) ∧
    runAgent execTool emptyAnswerGw 5 "hi" = some ⟨apologyMsg, []⟩ ∧
    apologyMsg ≠ "" :=
  ⟨by rfl, by rfl, by decide⟩

/-- Helper: whenever `run_agent` returns, its response text is non-empty;
and when the run captured no non-empty answer (every `agent` update of the
stream had empty content — the run never reached `Done` with an answer),
the response is exactly the fixed apology string. -/
theorem fallback_never_empty (exec : ToolCall → String) (gw : Gateway) (fuel : Nat)
    (m : String) (r : AgentResult)
    (hr : runAgent exec gw fuel m = some r) :
    r.response ≠ "" ∧
      (∀ evs msgs, runLoop exec gw fuel [Message.user m] = some (evs, msgs) →
        (∀ c cs, NodeEvent.agentStep c cs ∈ evs → c = "") →
        r.response = apologyMsg) := by
  cases hrun : runLoop exec gw fuel [Message.user m] with
  | none => rw [runAgent, hrun] at hr; exact absurd hr (by simp)
  | some p =>
    obtain ⟨evs, msgs⟩ := p
    rw [runAgent, hrun] at hr
    injection hr with h
    constructor
    · rw [← h]
      by_cases hfin : (if (streamFold evs ([], "")).2 = "" then
          (match msgs.getLast? with | some mm => mm.content | none => "") else
          (streamFold evs ([], "")).2) = ""
      · simp only [hfin, if_pos]
        decide
      · simp only [if_neg hfin]
        exact hfin
    · intro evs' msgs' hrun' hempty
      injection hrun' with h'
      obtain ⟨hevs, hmsgs⟩ := Prod.mk.injEq .. ▸ h'
      subst hevs; subst hmsgs
      obtain ⟨c, evs0, he, hl⟩ := runLoop_last exec gw fuel _ _ _ hrun
      have hc : c = "" := hempty c [] (by rw [he]; simp)
      have hacc : (streamFold evs ([], "")).2 = "" := streamFold_empty_agent evs hempty _
      rw [← h]
      simp only [hacc, if_pos, hl, hc, Message.content]

/-- C7: when the model's turn at some history carries a non-empty list of
tool calls, the following `action` step of the run appends exactly one
`tool`-role message per call — as many messages as calls, the i-th
answering the i-th call (same identifier, same name, content produced by
executing that call) — and the loop continues on the history extended by
the assistant message and exactly those tool messages, in call order. -/
theorem acting_appends_per_call (exec : ToolCall → String) (gw : Gateway)
    (fuel : Nat) (hist : List Message) (c : String) (cs : List ToolCall)
    (evs : List NodeEvent) (fin : List Message)
    (hgw : gw hist = (c, cs)) (hne : cs ≠ [])
    (hrun : runLoop exec gw (fuel + 1) hist = some (evs, fin)) :
    (∃ evs', evs = NodeEvent.agentStep c cs :: NodeEvent.actionStep (toolMessages exec cs) :: evs') ∧
      (toolMessages exec cs).length = cs.length ∧
      (∀ i : Fin cs.length,
        (toolMessages exec cs)[(i : Nat)]? =
          some (Message.tool (cs.get i).id (cs.get i).name (exec (cs.get i)))) ∧
      (runLoop exec gw fuel ((hist ++ [Message.assistant c cs]) ++ toolMessages exec cs)).isSome = true := by
  simp only [runLoop, hgw] at hrun
  rw [if_neg hne] at hrun
  cases hr : runLoop exec gw fuel ((hist ++ [Message.assistant c cs]) ++ toolMessages exec cs) with
  | none => rw [hr] at hrun; exact absurd hrun (by simp)
  | some p =>
    rw [hr] at hrun
    obtain ⟨evs', fin'⟩ := p
    injection hrun with h
    obtain ⟨hevs, hfin⟩ := Prod.mk.injEq .. ▸ h
    refine ⟨⟨evs', hevs.symm⟩, by simp [toolMessages], ?_, by rfl⟩
    intro i
    have hi : (i : Nat) < cs.length := i.2
    simp [toolMessages, List.getElem?_map, List.getElem?_eq_getElem hi, List.get_eq_getElem]

theorem acting_appends_per_call_witness :
    (∃ evs', ([NodeEvent.agentStep "" [⟨"call_1", "get_weather", [("city", "Paris")]⟩],
        NodeEvent.actionStep [Message.tool "call_1" "get_weather" (get_weather "Paris")],
        NodeEvent.agentStep "It's sunny in Paris." []] : List NodeEvent) =
        NodeEvent.agentStep "" [⟨"call_1", "get_weather", [("city", "Paris")]⟩] ::
        NodeEvent.actionStep
          (toolMessages execTool [⟨"call_1", "get_weather", [("city", "Paris")]⟩]) :: evs') ∧
      (toolMessages execTool [⟨"call_1", "get_weather", [("city", "Paris")]⟩]).length =
        ([⟨"call_1", "get_weather", [("city", "Paris")]⟩] : List ToolCall).length ∧
      (∀ i : Fin ([⟨"call_1", "get_weather", [("city", "Paris")]⟩] : List ToolCall).length,
        (toolMessages execTool [⟨"call_1", "get_weather", [("city", "Paris")]⟩])[(i : Nat)]? =
          some (Message.tool
            (([⟨"call_1", "get_weather", [("city", "Paris")]⟩] : List ToolCall).get i).id
            (([⟨"call_1", "get_weather", [("city", "Paris")]⟩] : List ToolCall).get i).name
            (execTool (([⟨"call_1", "get_weather", [("city", "Paris")]⟩] : List ToolCall).get i)))) ∧
      (runLoop execTool parisGw 9
        (([Message.user "What's the weather in Paris?"] ++
            [Message.assistant "" [⟨"call_1", "get_weather", [("city", "Paris")]⟩]]) ++
          toolMessages execTool [⟨"call_1", "get_weather", [("city", "Paris")]⟩])).isSome = true :=
  acting_appends_per_call execTool parisGw 9 [Message.user "What's the weather in Paris?"]
    "" [⟨"call_1", "get_weather", [("city", "Paris")]⟩]
    [NodeEvent.agentStep "" [⟨"call_1", "get_weather", [("city", "Paris")]⟩],
     NodeEvent.actionStep [Message.tool "call_1" "get_weather" (get_weather "Paris")],
     NodeEvent.agentStep "It's sunny in Paris." []]
    [Message.user "What's the weather in Paris?",
     Message.assistant "" [⟨"call_1", "get_weather", [("city", "Paris")]⟩],
     Message.tool "call_1" "get_weather" (get_weather "Paris"),
     Message.assistant "It's sunny in Paris." []]
    (by rfl) (by decide) (by rfl)

/-- C4 (amended): with no credential resolvable from the request body or
the environment, the registered `POST /chat` handler (main.py's `chat`)
returns a well-formed status-200 response whose body is a fixed
key-required message — not a stack trace; the alternative handler
`handle_chat` (chat.py, exported but mounted on no route) is the one that
fails with status 400 and a fixed missing-credential detail. -/
theorem missing_credential_behavior :
    (∀ (env : Option String) (aOk : Bool) (runM : String → List Message) (req : ChatReq),
      resolveKey req.api_key req.openai_api_key env = none →
        (chatMain env aOk runM req).status = 200 ∧
        (chatMain env aOk runM req).response = credRequiredMsg) ∧
    (∀ (hasG : Bool) (req : ChatReq2) (res : AgentResult),
      pyTruthy req.openai_api_key = false → hasG = false →
        (handleChat hasG req res).1 = 400 ∧
        (handleChat hasG req res).2.1 = missingKeyDetail) := by
  constructor
  · intro env aOk runM req h
    rw [chatMain, h]
    exact ⟨rfl, rfl⟩
  · intro hasG req res h1 h2
    rw [handleChat, h1, h2]
    exact ⟨rfl, rfl⟩

theorem missing_credential_behavior_witness :
    ((chatMain none true (fun _ => []) ⟨"hi", none, none⟩).status = 200 ∧
      (chatMain none true (fun _ => []) ⟨"hi", none, none⟩).response = credRequiredMsg) ∧
    ((handleChat false ⟨"hi", none⟩ ⟨"x", []⟩).1 = 400 ∧
      (handleChat false ⟨"hi", none⟩ ⟨"x", []⟩).2.1 = missingKeyDetail) :=
  ⟨missing_credential_behavior.1 none true (fun _ => []) ⟨"hi", none, none⟩ (by rfl),
   missing_credential_behavior.2 false ⟨"hi", none⟩ ⟨"x", []⟩ (by rfl) (by rfl)⟩

/-- C4 counterexample to the claim as stated: a `POST /chat` request with
no credential anywhere is answered by the registered handler with status
200 (the fixed key-required message), not 400. -/
theorem missing_credential_not_400 :
    (chatMain none true (fun _ => []) ⟨"hello", none, none⟩).status = 200 ∧
    (chatMain none true (fun _ => []) ⟨"hello", none, none⟩).response = credRequiredMsg ∧
    ¬ (chatMain none true (fun _ => []) ⟨"hello", none, none⟩).status = 400 := by
  refine ⟨by rfl, by rfl, by decide⟩

/-- C5: whatever the ambient credential, the agent's transcript and the
request, the invoked tool names the registered `POST /chat` handler
returns are duplicate-free (main.py line 233 passes them through
`list(set(...))`). -/
theorem invoked_tool_names_nodup (env : Option String) (aOk : Bool)
    (runM : String → List Message) (req : ChatReq) :
    (chatMain env aOk runM req).tool_calls.Nodup := by
  rw [chatMain]
  cases resolveKey req.api_key req.openai_api_key env with
  | none => exact List.nodup_nil
  | some k =>
    cases aOk with
    | false => exact List.nodup_nil
    | true =>
      simp only [if_true]
      cases (runM req.message).getLast? with
      | none => exact List.nodup_nil
      | some m => exact List.nodup_dedup _

/-- C6 (amended): the process-wide credential IS mutable state shared
across requests — whenever a credential `k` is resolved for a request, the
handler leaves `OPENAI_API_KEY` equal to `k` (overwriting it when it
differed, main.py lines 198-199), and only a request resolving no
credential leaves the environment untouched; so a request supplying its
own key changes the credential later requests observe. -/
theorem credential_env_mutation (env : Option String) (aOk : Bool)
    (runM : String → List Message) (req : ChatReq) :
    (∀ k, resolveKey req.api_key req.openai_api_key env = some k →
      (chatMain env aOk runM req).envAfter = some k) ∧
    (resolveKey req.api_key req.openai_api_key env = none →
      (chatMain env aOk runM req).envAfter = env) := by
  constructor
  · intro k hk
    rw [chatMain, hk]
    by_cases he : env = some k
    · simp only [if_pos he]
      cases aOk with
      | false => exact he
      | true =>
        simp only [if_true]
        cases (runM req.message).getLast? with
        | none => exact he
        | some m => exact he
    · simp only [if_neg he]
      cases aOk with
      | false => rfl
      | true =>
        simp only [if_true]
        cases (runM req.message).getLast? with
        | none => rfl
        | some m => rfl
  · intro h
    rw [chatMain, h]

theorem credential_env_mutation_witness :
    resolveKey (some "sk-req") none none = some "sk-req" ∧
    (chatMain none true (fun _ => []) ⟨"hi there", some "sk-req", none⟩).envAfter = some "sk-req" :=
  ⟨by rfl,
   (credential_env_mutation none true (fun _ => []) ⟨"hi there", some "sk-req", none⟩).1
     "sk-req" (by rfl)⟩

/-- C6 counterexample to the claim as stated: starting with no ambient
credential, one request carrying `api_key = "sk-new"` leaves the process
environment holding `"sk-new"` — the credential changed after
initialization — and a later request carrying no credential of its own now
resolves `"sk-new"`. -/
theorem credential_env_mutation_counterexample :
    (chatMain none true (fun _ => []) ⟨"first", some "sk-new", none⟩).envAfter = some "sk-new" ∧
    (none : Option String) ≠ some "sk-new" ∧
    resolveKey none none (some "sk-new") = some "sk-new" := by
  refine ⟨by rfl, by decide, by rfl⟩

/-- C9: the credential resolution of the registered `POST /chat` handler
(main.py line 190) accepts the key under either body field: a (non-empty)
key in `api_key` is resolved whatever the other field holds, and a key in
the compatibility field `openai_api_key` is resolved when `api_key` is
absent — `api_key` taking precedence when both are supplied. -/
theorem credential_either_field (o env : Option String) (k : String) (hk : k ≠ "") :
    resolveKey (some k) o env = some k ∧ resolveKey none (some k) env = some k := by
  have hb : (k != "") = true := bne_iff_ne.mpr hk
  constructor <;> simp [resolveKey, pyOr, pyTruthy, hb]

theorem credential_either_field_witness :
    ("sk-1" : String) ≠ "" ∧
    (resolveKey (some "sk-1") (some "other") none = some "sk-1" ∧
      resolveKey none (some "sk-1") none = some "sk-1") :=
  ⟨by decide, credential_either_field (some "other") none "sk-1" (by decide)⟩

/-- C10: `random_color` is total at its interface — on the empty list it
returns the fixed no-colors string whatever the random draw, and on a
non-empty list it returns the selection message naming an element of the
list (the drawn one). -/
theorem random_color_total (colors : List String) (pick : Nat) :
    (colors = [] → random_color colors pick = "No colors provided to choose from.") ∧
    (colors ≠ [] → ∃ c ∈ colors, random_color colors pick =
      "I randomly selected: " ++ c ++ " from the list " ++ pyStrListRepr colors) := by
  constructor
  · intro h
    simp only [random_color, dif_pos h]
  · intro h
    refine ⟨colors.get ⟨pick % colors.length, Nat.mod_lt _ (List.length_pos.mpr h)⟩,
      List.get_mem _ _ _, ?_⟩
    simp only [random_color, dif_neg h]

theorem random_color_total_witness :
    (["red", "blue"] : List String) ≠ [] ∧
    ∃ c ∈ (["red", "blue"] : List String), random_color ["red", "blue"] 3 =
      "I randomly selected: " ++ c ++ " from the list " ++ pyStrListRepr ["red", "blue"] :=
  ⟨by decide, (random_color_total ["red", "blue"] 3).2 (by decide)⟩

/-- C3 counterexample to the claim as stated: a run driven by the
registered `POST /chat` handler (main.py's `chat`, the only served route)
whose loop terminates with an empty-content final answer — so no non-empty
final answer was captured — returns `""` to the caller: the response text
is empty and is not the apology string.  The transcript handed to the
handler is exactly what the loop produces on such a gateway. -/
theorem served_route_empty_response :
    (runLoop execTool emptyAnswerGw 5 [Message.user "hi there"]).map Prod.snd =
      some [Message.user "hi there", Message.assistant "" []] ∧
    (chatMain (some "sk-env") true
        (fun m => [Message.user m, Message.assistant "" []]) ⟨"hi there", none, none⟩).response = "" ∧
    (chatMain (some "sk-env") true
        (fun m => [Message.user m, Message.assistant "" []]) ⟨"hi there", none, none⟩).response ≠ apologyMsg :=
  ⟨by rfl, by rfl, by decide⟩

/-- C3 (amended): the apology fallback belongs to `run_agent` (agent.py,
reachable only through the unmounted chat.py handler): whenever `run_agent`
returns, its response text is non-empty, and it is exactly the fixed
apology string when the run captured no non-empty final answer.  The
registered `POST /chat` handler (main.py's `chat`), by contrast, returns
the final message's content as-is once a credential resolves and the agent
initializes — so a run whose final answer has empty content yields an
empty response to the caller, with no apology. -/
theorem fallback_apology_scope :
    (∀ (exec : ToolCall → String) (gw : Gateway) (fuel : Nat) (m : String) (r : AgentResult),
      runAgent exec gw fuel m = some r →
        r.response ≠ "" ∧
        (∀ evs msgs, runLoop exec gw fuel [Message.user m] = some (evs, msgs) →
          (∀ c cs, NodeEvent.agentStep c cs ∈ evs → c = "") →
          r.response = apologyMsg)) ∧
    (∀ (env : Option String) (runM : String → List Message) (req : ChatReq)
        (k : String) (mm : Message),
      resolveKey req.api_key req.openai_api_key env = some k →
      (runM req.message).getLast? = some mm →
      (chatMain env true runM req).response = mm.content) := by
  constructor
  · intro exec gw fuel m r hr
    exact fallback_never_empty exec gw fuel m r hr
  · intro env runM req k mm hk hlast
    rw [chatMain, hk]
    simp only [if_true, hlast]

theorem fallback_apology_scope_witness :
    ((⟨apologyMsg, ([] : List String)⟩ : AgentResult).response ≠ "" ∧
      (∀ evs msgs, runLoop execTool emptyAnswerGw 3 [Message.user "ping"] = some (evs, msgs) →
        (∀ c cs, NodeEvent.agentStep c cs ∈ evs → c = "") →
        (⟨apologyMsg, ([] : List String)⟩ : AgentResult).response = apologyMsg)) ∧
    (chatMain (some "sk-env") true
        (fun m => [Message.user m, Message.assistant "" []]) ⟨"later", none, none⟩).response =
      (Message.assistant "" []).content :=
  ⟨fallback_apology_scope.1 execTool emptyAnswerGw 3 "ping" ⟨apologyMsg, []⟩ (by rfl),
   fallback_apology_scope.2 (some "sk-env")
     (fun m => [Message.user m, Message.assistant "" []]) ⟨"later", none, none⟩
     "sk-env" (Message.assistant "" []) (by rfl) (by rfl)⟩
